import Mathlib

/-!
Shallow embedding of the supervisor / status-monitoring core of the
`price_scanner` launcher (`src/launcher.py`), together with proofs of the
spec's testable properties about it.

Conventions of the embedding:
* Python lists become `List`; Python's negative-index slice `xs[-n:]` is
  modelled by `pySliceFromNeg` (note `xs[-0:]` is `xs[0:]`, the whole list).
* `datetime.now()` values are abstract `String` inputs passed explicitly.
* The database probe `test_connection` (database.py, lines 54-69) catches all
  exceptions internally and always returns a `(bool, str)` tuple, so
  `check_connection` takes the probe outcome as a `Bool × String` input.
* `get_local_ip` (main.py, lines 44-55) catches all exceptions and always
  returns a string, but other statements inside `start_server`'s `try` block
  (thread creation/start) may raise, so the fallible portion of the startup
  attempt is modelled as an `Except String String` input.
* Subscriber callbacks may raise; a callback is modelled as a function on an
  external state `σ` returning `Except String σ`, and the `try/except: pass`
  wrapper in `add_activity` keeps the pre-call state on error.
-/

namespace PriceScanner

/-- Python slice `xs[-count:]`.  For `count ≥ 1` this is the last
`min count xs.length` elements; for `count = 0` Python reads `xs[0:]`,
i.e. the whole list. -/
def pySliceFromNeg (xs : List α) (count : Nat) : List α :=
  if count = 0 then xs else xs.drop (xs.length - count)

/-- Python truthiness of an optional string: `None` and `""` are falsy. -/
def pyTruthy (o : Option String) : Bool :=
  match o with
  | none => false
  | some s => !(s == "")

/-- Python `str(...)` of an optional string: `None` prints as `"None"`. -/
def pyStr (o : Option String) : String :=
  match o with
  | none => "None"
  | some s => s

/-- The formatted activity line built in `ActivityLogger.add_activity`
(launcher.py line 43): `f"[{timestamp}] {level}: {message}"`. -/
def fmtActivity (timestamp level message : String) : String :=
  "[" ++ timestamp ++ "] " ++ level ++ ": " ++ message

/-- A subscriber callback: acts on an external state `σ` and may raise
(modelled as `Except.error`). -/
def Callback (σ : Type) : Type := String → σ → Except String σ

/-- State of `ActivityLogger` (launcher.py lines 34-61). -/
structure ActivityLogger (σ : Type) where
  activities : List String
  max_entries : Nat
  callbacks : List (Callback σ)

/-- A fresh logger, as built by `ActivityLogger.__init__` with the default
`max_entries=100` overridable. -/
def ActivityLogger.init (σ : Type) (max_entries : Nat := 100) : ActivityLogger σ :=
  { activities := [], max_entries := max_entries, callbacks := [] }

/-- The callback-notification loop at the end of `add_activity`
(launcher.py lines 51-55): each callback is invoked with the formatted
entry; an exception from a callback is swallowed (`except: pass`) and the
loop continues with the next callback. -/
def notifyCallbacks (cbs : List (Callback σ)) (activity : String) (ext : σ) : σ :=
  match cbs with
  | [] => ext
  | c :: rest =>
      notifyCallbacks rest activity
        (match c activity ext with
         | Except.ok e => e
         | Except.error _ => ext)

/-- `ActivityLogger.add_activity` (launcher.py lines 41-55): format the
entry, append it, truncate to the last `max_entries` via the slice
`self.activities[-self.max_entries:]` when over capacity, then notify all
callbacks (exceptions swallowed). -/
def add_activity (l : ActivityLogger σ) (ext : σ) (now message : String)
    (level : String := "INFO") : ActivityLogger σ × σ :=
  let activity := fmtActivity now level message
  let acts := l.activities ++ [activity]
  let acts :=
    if l.max_entries < acts.length then pySliceFromNeg acts l.max_entries
    else acts
  ({ l with activities := acts }, notifyCallbacks l.callbacks activity ext)

/-- `ActivityLogger.add_callback` (launcher.py lines 57-58). -/
def add_callback (l : ActivityLogger σ) (c : Callback σ) : ActivityLogger σ :=
  { l with callbacks := l.callbacks ++ [c] }

/-- `ActivityLogger.get_recent` (launcher.py lines 60-61):
`self.activities[-count:] if self.activities else []`.  Returned together
with the (unchanged) logger state to make the frame property explicit. -/
def get_recent (l : ActivityLogger σ) (count : Nat := 20) :
    List String × ActivityLogger σ :=
  (if l.activities.isEmpty then [] else pySliceFromNeg l.activities count, l)

/-- The last `min C xs.length` elements of `xs` (specification-side view of
the eviction slice for positive capacity). -/
def lastC (C : Nat) (xs : List α) : List α :=
  xs.drop (xs.length - C)

/-- An `add_activity` call record: (timestamp, message, level). -/
abbrev LogItem : Type := String × String × String

/-- The formatted line a call record produces. -/
def fmtItem (it : LogItem) : String :=
  fmtActivity it.1 it.2.2 it.2.1

/-- A sequence of `add_activity` calls. -/
def appendAll (l : ActivityLogger σ) (ext : σ) (items : List LogItem) :
    ActivityLogger σ × σ :=
  match items with
  | [] => (l, ext)
  | (now, msg, lvl) :: rest =>
      let (l, ext) := add_activity l ext now msg lvl
      appendAll l ext rest

/-- State of `DatabaseMonitor` (launcher.py lines 63-70) apart from the
shared logger (passed separately) and the thread handle. -/
structure DatabaseMonitor where
  is_connected : Bool
  last_check : Option String
  monitoring : Bool

/-- `DatabaseMonitor.__init__` (launcher.py lines 65-70). -/
def DatabaseMonitor.init : DatabaseMonitor :=
  { is_connected := false, last_check := none, monitoring := false }

/-- `DatabaseMonitor.check_connection` (launcher.py lines 93-107), the
non-raising path: since `test_connection` returns a tuple and never raises,
the probe outcome is the input `probe`.  Logs only on a change of the
connected flag (SUCCESS on `false→true`, ERROR on `true→false`), updates
`is_connected` on change, and always stamps `last_check`. -/
def check_connection (m : DatabaseMonitor) (lg : ActivityLogger σ) (ext : σ)
    (probe : Bool × String) (now : String) :
    (Bool × String) × DatabaseMonitor × ActivityLogger σ × σ :=
  let is_connected := probe.1
  let message := probe.2
  let (m, lg, ext) :=
    if is_connected ≠ m.is_connected then
      let (lg, ext) :=
        if is_connected then
          add_activity lg ext now "Database connection restored" "SUCCESS"
        else
          add_activity lg ext now ("Database connection lost: " ++ message) "ERROR"
      ({ m with is_connected := is_connected }, lg, ext)
    else (m, lg, ext)
  ((is_connected, message), { m with last_check := some now }, lg, ext)

/-- A poll: the probe outcome together with the timestamp of the check. -/
abbrev Poll : Type := (Bool × String) × String

/-- Run `check_connection` over a sequence of polls (the body of
`_monitor_loop`, launcher.py lines 84-91, with the sleeps elided). -/
def runPolls (m : DatabaseMonitor) (lg : ActivityLogger σ) (ext : σ)
    (polls : List Poll) : DatabaseMonitor × ActivityLogger σ × σ :=
  match polls with
  | [] => (m, lg, ext)
  | (probe, now) :: rest =>
      let (_, m, lg, ext) := check_connection m lg ext probe now
      runPolls m lg ext rest

/-- The activity lines `check_connection` emits along a sequence of polls:
exactly one per change of the connected flag, none otherwise. -/
def emitted (prev : Bool) (polls : List Poll) : List String :=
  match polls with
  | [] => []
  | ((isc, msg), now) :: rest =>
      (if isc ≠ prev then
        [if isc then fmtActivity now "SUCCESS" "Database connection restored"
         else fmtActivity now "ERROR" ("Database connection lost: " ++ msg)]
       else []) ++ emitted isc rest

/-- State of `ServerManager` (launcher.py lines 115-124) apart from the
shared logger and the thread handle. -/
structure ServerManager where
  is_running : Bool
  host : String
  port : Nat
  local_ip : Option String
  ssl_enabled : Bool

/-- `ServerManager.__init__` (launcher.py lines 117-124). -/
def ServerManager.init : ServerManager :=
  { is_running := false, host := "0.0.0.0", port := 8000,
    local_ip := none, ssl_enabled := false }

/-- `ServerManager.start_server` (launcher.py lines 126-158).  If already
running, returns `true` immediately.  Otherwise records whether both TLS
files exist, then performs the fallible part of the startup attempt
(`get_local_ip`, thread spawn — abstracted as `attempt`): on an exception
the handler logs one ERROR entry and returns `false`, leaving `is_running`
untouched; on success it stores the local ip, logs one SUCCESS entry with
the computed address, sets `is_running := true` and returns `true`. -/
def start_server (m : ServerManager) (lg : ActivityLogger σ) (ext : σ)
    (key_exists cert_exists : Bool) (attempt : Except String String)
    (now : String) : Bool × ServerManager × ActivityLogger σ × σ :=
  if m.is_running then (true, m, lg, ext)
  else
    let m := { m with ssl_enabled := key_exists && cert_exists }
    match attempt with
    | Except.error e =>
        let (lg, ext) :=
          add_activity lg ext now ("Failed to start server: " ++ e) "ERROR"
        (false, m, lg, ext)
    | Except.ok ip =>
        let m := { m with local_ip := some ip }
        let protocol := if m.ssl_enabled then "https" else "http"
        let (lg, ext) :=
          add_activity lg ext now
            ("Server started on " ++ protocol ++ "://" ++ pyStr m.local_ip
              ++ ":" ++ toString m.port) "SUCCESS"
        (true, { m with is_running := true }, lg, ext)

/-- `ServerManager.get_urls` (launcher.py lines 173-181): `(None, None)`
when not running; otherwise the local URL, and the network URL only when
`self.local_ip` is truthy (non-`None`, non-empty). -/
def get_urls (m : ServerManager) : Option String × Option String :=
  if !m.is_running then (none, none)
  else
    let protocol := if m.ssl_enabled then "https" else "http"
    let local_url := protocol ++ "://localhost:" ++ toString m.port
    let network_url :=
      if pyTruthy m.local_ip then
        some (protocol ++ "://" ++ pyStr m.local_ip ++ ":" ++ toString m.port)
      else none
    (some local_url, network_url)

/-- A well-behaved subscriber callback that records each delivered entry
(models the GUI callback registered in `setup_activity_callback`). -/
def goodCb : Callback (List String) := fun a s => Except.ok (s ++ [a])

/-- A subscriber callback that raises on every delivery. -/
def badCb : Callback (List String) := fun _ _ => Except.error "boom"

/-- The tri-state aggregate status of the spec (§3, AggregateStatus). -/
inductive AggregateStatus where
  | HEALTHY
  | DEGRADED
  | DOWN
  deriving DecidableEq, Repr

/-- The colour choice of `PriceScannerGUI.create_status_icon`
(launcher.py lines 397-403): green if server running and db connected,
orange if only running, red otherwise. -/
def create_status_icon_color (running connected : Bool) : String :=
  if running && connected then "green"
  else if running then "orange"
  else "red"

/-- Modelled from the spec (§4.4): the StatusAggregator as the spec words
it — HEALTHY if both running and connected, DEGRADED if running but not
connected, DOWN if not running. -/
def aggregate_spec (running connected : Bool) : AggregateStatus :=
  if running && connected then AggregateStatus.HEALTHY
  else if running then AggregateStatus.DEGRADED
  else AggregateStatus.DOWN

/-- The colour the icon renders for each aggregate status. -/
def statusColor : AggregateStatus → String
  | AggregateStatus.HEALTHY => "green"
  | AggregateStatus.DEGRADED => "orange"
  | AggregateStatus.DOWN => "red"

/-! ## Helper lemmas -/

theorem length_lastC (C : Nat) (xs : List α) :
    (lastC C xs).length = xs.length - (xs.length - C) := by
  simp [lastC]

theorem lastC_of_le {C : Nat} {xs : List α} (h : xs.length ≤ C) :
    lastC C xs = xs := by
  simp [lastC, Nat.sub_eq_zero_of_le h]

theorem lastC_append_lastC (C : Nat) (xs ys : List α) :
    lastC C (lastC C xs ++ ys) = lastC C (xs ++ ys) := by
  unfold lastC
  rw [List.drop_append_eq_append_drop, List.drop_append_eq_append_drop,
    List.drop_drop]
  congr 1
  · congr 1
    simp only [List.length_append, List.length_drop]
    omega
  · congr 1
    simp only [List.length_append, List.length_drop]
    omega

theorem add_activity_fst_activities {σ : Type} (l : ActivityLogger σ) (ext : σ)
    (now msg lvl : String) (h : 1 ≤ l.max_entries) :
    (add_activity l ext now msg lvl).1.activities
      = lastC l.max_entries (l.activities ++ [fmtActivity now lvl msg]) := by
  simp only [add_activity, pySliceFromNeg, lastC]
  split
  · next hov =>
    rw [if_neg (by omega)]
  · next hov =>
    have : (l.activities ++ [fmtActivity now lvl msg]).length - l.max_entries = 0 := by
      simp only [List.length_append, List.length_singleton] at *
      omega
    rw [this, List.drop_zero]

theorem add_activity_fst_max {σ : Type} (l : ActivityLogger σ) (ext : σ)
    (now msg lvl : String) :
    (add_activity l ext now msg lvl).1.max_entries = l.max_entries := rfl

theorem add_activity_fst_callbacks {σ : Type} (l : ActivityLogger σ) (ext : σ)
    (now msg lvl : String) :
    (add_activity l ext now msg lvl).1.callbacks = l.callbacks := rfl

theorem add_activity_no_evict {σ : Type} (l : ActivityLogger σ) (ext : σ)
    (now msg lvl : String) (h : l.activities.length < l.max_entries) :
    (add_activity l ext now msg lvl).1.activities
      = l.activities ++ [fmtActivity now lvl msg] := by
  simp only [add_activity]
  rw [if_neg (by simp only [List.length_append, List.length_singleton]; omega)]

theorem appendAll_fst_activities {σ : Type} (items : List LogItem) :
    ∀ (l : ActivityLogger σ) (ext : σ), 1 ≤ l.max_entries →
      l.activities.length ≤ l.max_entries →
      (appendAll l ext items).1.activities
        = lastC l.max_entries (l.activities ++ items.map fmtItem) := by
  induction items with
  | nil =>
    intro l ext _ hlen
    simp only [appendAll, List.map_nil, List.append_nil]
    exact (lastC_of_le hlen).symm
  | cons it rest ih =>
    intro l ext hC hlen
    obtain ⟨now, msg, lvl⟩ := it
    simp only [appendAll, List.map_cons]
    have hstep := add_activity_fst_activities l ext now msg lvl hC
    have hmax := add_activity_fst_max l ext now msg lvl
    have hlen' : (add_activity l ext now msg lvl).1.activities.length
        ≤ (add_activity l ext now msg lvl).1.max_entries := by
      rw [hstep, hmax, length_lastC]
      omega
    have := ih (add_activity l ext now msg lvl).1 (add_activity l ext now msg lvl).2
      (by rw [hmax]; exact hC) hlen'
    rw [this, hmax, hstep, lastC_append_lastC]
    congr 1
    simp [fmtItem]

theorem appendAll_fst_max {σ : Type} (items : List LogItem) :
    ∀ (l : ActivityLogger σ) (ext : σ),
      (appendAll l ext items).1.max_entries = l.max_entries := by
  induction items with
  | nil => intro l ext; rfl
  | cons it rest ih =>
    intro l ext
    obtain ⟨now, msg, lvl⟩ := it
    simp only [appendAll]
    rw [ih, add_activity_fst_max]

theorem pySliceFromNeg_of_pos {n : Nat} (hn : n ≠ 0) (xs : List α) :
    pySliceFromNeg xs n = xs.drop (xs.length - n) := by
  simp [pySliceFromNeg, hn]

theorem check_connection_eq_self {σ : Type} (m : DatabaseMonitor)
    (lg : ActivityLogger σ) (ext : σ) (isc : Bool) (msg now : String)
    (hc : isc = m.is_connected) :
    check_connection m lg ext (isc, msg) now
      = ((isc, msg), { m with last_check := some now }, lg, ext) := by
  subst hc
  simp [check_connection]

theorem check_connection_eq_change {σ : Type} (m : DatabaseMonitor)
    (lg : ActivityLogger σ) (ext : σ) (isc : Bool) (msg now : String)
    (hc : ¬ isc = m.is_connected) :
    check_connection m lg ext (isc, msg) now
      = ((isc, msg),
         { m with is_connected := isc, last_check := some now },
         (if isc then add_activity lg ext now "Database connection restored" "SUCCESS"
          else add_activity lg ext now ("Database connection lost: " ++ msg) "ERROR").1,
         (if isc then add_activity lg ext now "Database connection restored" "SUCCESS"
          else add_activity lg ext now ("Database connection lost: " ++ msg) "ERROR").2) := by
  cases isc <;> simp [check_connection, hc]

theorem check_connection_monitor {σ : Type} (m : DatabaseMonitor)
    (lg : ActivityLogger σ) (ext : σ) (probe : Bool × String) (now : String) :
    (check_connection m lg ext probe now).2.1
      = { m with is_connected := probe.1, last_check := some now } := by
  rcases probe with ⟨pc, pm⟩
  by_cases hc : pc = m.is_connected
  · rw [check_connection_eq_self m lg ext pc pm now hc, hc]
  · rw [check_connection_eq_change m lg ext pc pm now hc]

/-! ## Claims -/

/-- C1: for every capacity `C > 0` and every sequence of more than `C`
`add_activity` calls on a fresh logger of capacity `C`, after each prefix of
the calls the stored log length is at most `C`, and `get_recent C` returns
exactly the formatted lines of the last `C` calls, in call order (FIFO
eviction of the oldest entries). -/
theorem C1_capacity_fifo_eviction (σ : Type) (ext : σ) (C k : Nat)
    (items : List LogItem) (hC : 0 < C) (hlen : C < items.length) :
    ((appendAll (ActivityLogger.init σ C) ext (items.take k)).1.activities.length ≤ C)
    ∧ (get_recent (appendAll (ActivityLogger.init σ C) ext items).1 C).1
        = (items.map fmtItem).drop (items.length - C)
    ∧ ((get_recent (appendAll (ActivityLogger.init σ C) ext items).1 C).1.length = C) := by
  have hacts0 : (ActivityLogger.init σ C).activities = [] := rfl
  have hmax : (ActivityLogger.init σ C).max_entries = C := rfl
  have hC1 : 1 ≤ (ActivityLogger.init σ C).max_entries := by rw [hmax]; omega
  have hlen0 : (ActivityLogger.init σ C).activities.length
      ≤ (ActivityLogger.init σ C).max_entries := by
    rw [hacts0, hmax]; simp
  have hpre := appendAll_fst_activities (σ := σ) (items.take k)
    (ActivityLogger.init σ C) ext hC1 hlen0
  have hall := appendAll_fst_activities (σ := σ) items
    (ActivityLogger.init σ C) ext hC1 hlen0
  rw [hacts0, hmax, List.nil_append] at hpre
  rw [hacts0, hmax, List.nil_append] at hall
  have hmaplen : (items.map fmtItem).length = items.length := List.length_map _ _
  have hflen : (appendAll (ActivityLogger.init σ C) ext items).1.activities.length
      = C := by
    rw [hall, length_lastC]
    omega
  have hne : (appendAll (ActivityLogger.init σ C) ext items).1.activities.isEmpty
      = false := by
    rcases hli : (appendAll (ActivityLogger.init σ C) ext items).1.activities with _ | ⟨a, t⟩
    · rw [hli] at hflen
      simp only [List.length_nil] at hflen
      exfalso
      omega
    · rfl
  have hget : (get_recent (appendAll (ActivityLogger.init σ C) ext items).1 C).1
      = (appendAll (ActivityLogger.init σ C) ext items).1.activities := by
    simp only [get_recent, hne, Bool.false_eq_true, if_false, pySliceFromNeg]
    rw [if_neg (by omega), hflen, Nat.sub_self, List.drop_zero]
  refine ⟨?_, ?_, ?_⟩
  · rw [hpre, length_lastC]
    omega
  · rw [hget, hall]
    simp only [lastC, hmaplen]
  · rw [hget]
    exact hflen

/-- Witness for C1 at capacity 1 and a sequence of 2 calls. -/
theorem C1_capacity_fifo_eviction_witness :
    (get_recent (appendAll (ActivityLogger.init Unit 1) ()
        [("t1", "a", "INFO"), ("t2", "b", "INFO")]).1 1).1
      = ([("t1", "a", "INFO"), ("t2", "b", "INFO")].map fmtItem).drop 1 :=
  (C1_capacity_fifo_eviction Unit () 1 0
    [("t1", "a", "INFO"), ("t2", "b", "INFO")] (by decide) (by decide)).2.1

/-- C9 counterexample: the claim fails at `n = 0`.  `get_recent 0` reads the
Python slice `activities[-0:]`, i.e. `activities[0:]` — the whole list — so
on a log holding one entry it returns 1 entry, not at most 0. -/
theorem C9_recent_zero_counterexample :
    (get_recent ({ activities := ["[09:00:00] INFO: boot"],
                   max_entries := 100, callbacks := [] } : ActivityLogger Unit) 0).1.length = 1
    ∧ ¬ ((get_recent ({ activities := ["[09:00:00] INFO: boot"],
                        max_entries := 100, callbacks := [] } : ActivityLogger Unit) 0).1.length ≤ 0) := by
  exact ⟨rfl, by decide⟩

/-- C9 (amended): for every `n ≥ 1` and every logger state, `get_recent n`
returns at most `n` entries — the last `min n length` entries of the log —
and leaves the logger state unchanged.  (At `n = 0` with a nonempty log the
code instead returns the entire log.) -/
theorem C9_recent_snapshot (σ : Type) (l : ActivityLogger σ) (n : Nat)
    (hn : 1 ≤ n) :
    (get_recent l n).1.length ≤ n
    ∧ (get_recent l n).1 = l.activities.drop (l.activities.length - n)
    ∧ (get_recent l n).2 = l := by
  have hmain : (get_recent l n).1 = l.activities.drop (l.activities.length - n) := by
    rcases hacts : l.activities with _ | ⟨a, t⟩
    · simp [get_recent, hacts]
    · simp [get_recent, hacts, pySliceFromNeg_of_pos (show n ≠ 0 by omega)]
  refine ⟨?_, hmain, rfl⟩
  rw [hmain]
  simp only [List.length_drop]
  omega

/-- Witness for C9 (amended) at `n = 1` on a two-entry log. -/
theorem C9_recent_snapshot_witness :
    (get_recent ({ activities := ["[t] INFO: a", "[t] INFO: b"],
                   max_entries := 100, callbacks := [] } : ActivityLogger Unit) 1).1.length ≤ 1
    ∧ (get_recent ({ activities := ["[t] INFO: a", "[t] INFO: b"],
                     max_entries := 100, callbacks := [] } : ActivityLogger Unit) 1).1
      = ["[t] INFO: a", "[t] INFO: b"].drop (["[t] INFO: a", "[t] INFO: b"].length - 1)
    ∧ (get_recent ({ activities := ["[t] INFO: a", "[t] INFO: b"],
                     max_entries := 100, callbacks := [] } : ActivityLogger Unit) 1).2
      = ({ activities := ["[t] INFO: a", "[t] INFO: b"],
           max_entries := 100, callbacks := [] } : ActivityLogger Unit) :=
  C9_recent_snapshot Unit
    ({ activities := ["[t] INFO: a", "[t] INFO: b"],
       max_entries := 100, callbacks := [] } : ActivityLogger Unit) 1 (by decide)

/-- C2: the aggregate status is a pure function of
`(ServiceStatus.running, DependencyStatus.connected)`, and the colour the
icon code picks (green / orange / red) is exactly the rendering of
HEALTHY / DEGRADED / DOWN: HEALTHY iff running and connected, DEGRADED iff
running and not connected, DOWN whenever not running. -/
theorem C2_aggregate_status :
    (∀ running connected : Bool,
      create_status_icon_color running connected
        = statusColor (aggregate_spec running connected))
    ∧ aggregate_spec true true = AggregateStatus.HEALTHY
    ∧ aggregate_spec true false = AggregateStatus.DEGRADED
    ∧ aggregate_spec false true = AggregateStatus.DOWN
    ∧ aggregate_spec false false = AggregateStatus.DOWN := by
  refine ⟨?_, rfl, rfl, rfl, rfl⟩
  decide

/-- C6: calling `start_server` when `is_running` is already `true` returns
success immediately and changes nothing: no new service instance state, no
activity entry, no field of the manager, logger, or external state touched. -/
theorem C6_start_idempotent (σ : Type) (m : ServerManager) (lg : ActivityLogger σ)
    (ext : σ) (key_exists cert_exists : Bool) (attempt : Except String String)
    (now : String) (h : m.is_running = true) :
    start_server m lg ext key_exists cert_exists attempt now = (true, m, lg, ext) := by
  simp [start_server, h]

/-- Witness for C6 on an already-running manager. -/
theorem C6_start_idempotent_witness :
    start_server ({ ServerManager.init with is_running := true }) (ActivityLogger.init Unit)
        () false false (Except.ok "10.0.0.5") "t"
      = (true, { ServerManager.init with is_running := true }, ActivityLogger.init Unit, ()) :=
  C6_start_idempotent Unit { ServerManager.init with is_running := true }
    (ActivityLogger.init Unit) () false false (Except.ok "10.0.0.5") "t" rfl

/-- C8: every invocation of `check_connection` (poll loop or manual retry —
both call the same method) sets `is_connected` to the probe result and
stamps `last_check` with the time of this check, including when the probe
reports failure (the probe collaborator `test_connection` never raises; it
returns a failure tuple). -/
theorem C8_check_updates_status (σ : Type) (m : DatabaseMonitor)
    (lg : ActivityLogger σ) (ext : σ) (probe : Bool × String) (now : String) :
    (check_connection m lg ext probe now).2.1.is_connected = probe.1
    ∧ (check_connection m lg ext probe now).2.1.last_check = some now := by
  rw [check_connection_monitor]
  exact ⟨rfl, rfl⟩

/-- C5: if an exception is raised during the startup attempt,
`start_server` catches it, appends exactly one ERROR entry to the log,
returns failure, and leaves `is_running = false`; the function performs no
retry — it returns at once, so `is_running` stays `false` until
`start_server` is invoked again externally. -/
theorem C5_startup_failure (σ : Type) (m : ServerManager) (lg : ActivityLogger σ)
    (ext : σ) (key_exists cert_exists : Bool) (e now : String)
    (hrun : m.is_running = false) (hcap : lg.activities.length < lg.max_entries) :
    (start_server m lg ext key_exists cert_exists (Except.error e) now).1 = false
    ∧ (start_server m lg ext key_exists cert_exists (Except.error e) now).2.1.is_running = false
    ∧ (start_server m lg ext key_exists cert_exists (Except.error e) now).2.2.1.activities
        = lg.activities ++ [fmtActivity now "ERROR" ("Failed to start server: " ++ e)] := by
  rcases m with ⟨mir, mh, mp, mip, ms⟩
  cases mir
  · exact ⟨rfl, rfl, add_activity_no_evict lg ext now ("Failed to start server: " ++ e) "ERROR" hcap⟩
  · simp at hrun

/-- Witness for C5: a failing startup attempt on a fresh manager. -/
theorem C5_startup_failure_witness :
    (start_server ServerManager.init (ActivityLogger.init Unit) () false false
        (Except.error "bind failed") "t").1 = false
    ∧ (start_server ServerManager.init (ActivityLogger.init Unit) () false false
        (Except.error "bind failed") "t").2.1.is_running = false
    ∧ (start_server ServerManager.init (ActivityLogger.init Unit) () false false
        (Except.error "bind failed") "t").2.2.1.activities
      = (ActivityLogger.init Unit).activities
        ++ [fmtActivity "t" "ERROR" ("Failed to start server: " ++ "bind failed")] :=
  C5_startup_failure Unit ServerManager.init (ActivityLogger.init Unit) () false false
    "bind failed" "t" rfl (by decide)

/-- C7: with neither TLS file present, a successful start selects the
plaintext protocol (`ssl_enabled = false`) and `get_urls` afterwards
returns only addresses of the form `"http://" ++ rest`; and for any manager
that is not running, `get_urls` returns `(none, none)`. -/
theorem C7_plaintext_urls (σ : Type) (m : ServerManager) (lg : ActivityLogger σ)
    (ext : σ) (ip now : String) (b : Bool) (m' : ServerManager)
    (lg' : ActivityLogger σ) (ext' : σ)
    (hrun : m.is_running = false)
    (hres : start_server m lg ext false false (Except.ok ip) now = (b, m', lg', ext')) :
    b = true
    ∧ m'.ssl_enabled = false
    ∧ m'.is_running = true
    ∧ (∀ u : String, (get_urls m').1 = some u ∨ (get_urls m').2 = some u →
        ∃ rest, u = "http://" ++ rest)
    ∧ (∀ mm : ServerManager, mm.is_running = false → get_urls mm = (none, none)) := by
  have hurls : ∀ mm : ServerManager, mm.is_running = false → get_urls mm = (none, none) := by
    intro mm hmm
    simp [get_urls, hmm]
  rcases m with ⟨mir, mh, mp, mip, ms⟩
  cases mir
  case true => simp at hrun
  case false =>
    have hstep : start_server (⟨false, mh, mp, mip, ms⟩ : ServerManager) lg ext false false
        (Except.ok ip) now
        = (true, (⟨true, mh, mp, some ip, false⟩ : ServerManager),
           (add_activity lg ext now
             ("Server started on " ++ "http" ++ "://" ++ pyStr (some ip)
               ++ ":" ++ toString mp) "SUCCESS").1,
           (add_activity lg ext now
             ("Server started on " ++ "http" ++ "://" ++ pyStr (some ip)
               ++ ":" ++ toString mp) "SUCCESS").2) := rfl
    rw [hstep] at hres
    injection hres with hb hrest
    injection hrest with hm hrest2
    injection hrest2 with hl he
    subst hb
    subst hm
    have hg : get_urls (⟨true, mh, mp, some ip, false⟩ : ServerManager)
        = (some (("http" ++ "://localhost:") ++ toString mp),
           if pyTruthy (some ip) then
             some (((("http" ++ "://") ++ ip) ++ ":") ++ toString mp)
           else none) := rfl
    refine ⟨rfl, rfl, rfl, ?_, hurls⟩
    intro u hu
    rw [hg] at hu
    rcases hu with h | h
    · refine ⟨"localhost:" ++ toString mp, ?_⟩
      have h' := Option.some.inj h
      rw [← h']
      rfl
    · have h2 : (if pyTruthy (some ip) = true then
          some (((("http" ++ "://") ++ ip) ++ ":") ++ toString mp)
        else none) = some u := h
      by_cases hip : pyTruthy (some ip) = true
      · rw [if_pos hip] at h2
        refine ⟨(ip ++ ":") ++ toString mp, ?_⟩
        have h' := Option.some.inj h2
        rw [← h']
        rfl
      · rw [if_neg hip] at h2
        exact absurd h2 (by simp)

/-- Witness for C7: successful plaintext start on a fresh manager. -/
theorem C7_plaintext_urls_witness :
    ({ is_running := true, host := "0.0.0.0", port := 8000,
       local_ip := some "192.168.1.7", ssl_enabled := false } : ServerManager).ssl_enabled
      = false :=
  (C7_plaintext_urls Unit ServerManager.init (ActivityLogger.init Unit) ()
    "192.168.1.7" "t" true
    ({ is_running := true, host := "0.0.0.0", port := 8000,
       local_ip := some "192.168.1.7", ssl_enabled := false } : ServerManager)
    _ _ rfl rfl).2.1

theorem runPolls_cons {σ : Type} (m : DatabaseMonitor) (lg : ActivityLogger σ)
    (ext : σ) (probe : Bool × String) (now : String) (rest : List Poll) :
    runPolls m lg ext ((probe, now) :: rest)
      = runPolls (check_connection m lg ext probe now).2.1
          (check_connection m lg ext probe now).2.2.1
          (check_connection m lg ext probe now).2.2.2 rest := by
  rcases hX : check_connection m lg ext probe now with ⟨r, m', lg', ext'⟩
  simp [runPolls, hX]

theorem runPolls_activities {σ : Type} (polls : List Poll) :
    ∀ (m : DatabaseMonitor) (lg : ActivityLogger σ) (ext : σ),
      lg.activities.length + (emitted m.is_connected polls).length ≤ lg.max_entries →
      (runPolls m lg ext polls).2.1.activities
        = lg.activities ++ emitted m.is_connected polls := by
  induction polls with
  | nil =>
    intro m lg ext _
    simp [runPolls, emitted]
  | cons p rest ih =>
    intro m lg ext hcap
    obtain ⟨⟨isc, msg⟩, now⟩ := p
    by_cases hc : isc = m.is_connected
    · subst hc
      rw [runPolls_cons, check_connection_eq_self m lg ext m.is_connected msg now rfl]
      have hem : emitted m.is_connected (((m.is_connected, msg), now) :: rest)
          = emitted m.is_connected rest := by
        simp [emitted]
      rw [hem]
      rw [hem] at hcap
      exact ih { m with last_check := some now } lg ext hcap
    · rw [runPolls_cons, check_connection_eq_change m lg ext isc msg now hc]
      cases isc with
      | true =>
        have hmf : m.is_connected = false := by
          cases hmc : m.is_connected
          · rfl
          · exact absurd hmc.symm hc
        have hem : emitted m.is_connected (((true, msg), now) :: rest)
            = fmtActivity now "SUCCESS" "Database connection restored"
              :: emitted true rest := by
          simp [emitted, hmf]
        rw [hem] at hcap
        simp only [List.length_cons] at hcap
        have hlt : lg.activities.length < lg.max_entries := by omega
        have hlg := add_activity_no_evict lg ext now
          "Database connection restored" "SUCCESS" hlt
        have hcap' : (add_activity lg ext now "Database connection restored"
              "SUCCESS").1.activities.length + (emitted true rest).length
            ≤ (add_activity lg ext now "Database connection restored"
              "SUCCESS").1.max_entries := by
          rw [hlg, add_activity_fst_max]
          simp only [List.length_append, List.length_cons, List.length_nil]
          omega
        have hrec := ih { m with is_connected := true, last_check := some now }
          (add_activity lg ext now "Database connection restored" "SUCCESS").1
          (add_activity lg ext now "Database connection restored" "SUCCESS").2 hcap'
        rw [hem, show lg.activities
            ++ (fmtActivity now "SUCCESS" "Database connection restored"
              :: emitted true rest)
            = (lg.activities
                ++ [fmtActivity now "SUCCESS" "Database connection restored"])
              ++ emitted true rest from by simp, ← hlg]
        exact hrec
      | false =>
        have hmt : m.is_connected = true := by
          cases hmc : m.is_connected
          · exact absurd hmc.symm hc
          · rfl
        have hem : emitted m.is_connected (((false, msg), now) :: rest)
            = fmtActivity now "ERROR" ("Database connection lost: " ++ msg)
              :: emitted false rest := by
          simp [emitted, hmt]
        rw [hem] at hcap
        simp only [List.length_cons] at hcap
        have hlt : lg.activities.length < lg.max_entries := by omega
        have hlg := add_activity_no_evict lg ext now
          ("Database connection lost: " ++ msg) "ERROR" hlt
        have hcap' : (add_activity lg ext now ("Database connection lost: " ++ msg)
              "ERROR").1.activities.length + (emitted false rest).length
            ≤ (add_activity lg ext now ("Database connection lost: " ++ msg)
              "ERROR").1.max_entries := by
          rw [hlg, add_activity_fst_max]
          simp only [List.length_append, List.length_cons, List.length_nil]
          omega
        have hrec := ih { m with is_connected := false, last_check := some now }
          (add_activity lg ext now ("Database connection lost: " ++ msg) "ERROR").1
          (add_activity lg ext now ("Database connection lost: " ++ msg) "ERROR").2 hcap'
        rw [hem, show lg.activities
            ++ (fmtActivity now "ERROR" ("Database connection lost: " ++ msg)
              :: emitted false rest)
            = (lg.activities
                ++ [fmtActivity now "ERROR" ("Database connection lost: " ++ msg)])
              ++ emitted false rest from by simp, ← hlg]
        exact hrec

theorem runPolls_connected {σ : Type} (polls : List Poll) :
    ∀ (m : DatabaseMonitor) (lg : ActivityLogger σ) (ext : σ) (p : Bool × String)
      (now : String),
      (runPolls m lg ext (polls ++ [(p, now)])).1.is_connected = p.1 := by
  induction polls with
  | nil =>
    intro m lg ext p now
    rw [List.nil_append, runPolls_cons]
    show (check_connection m lg ext p now).2.1.is_connected = p.1
    rw [check_connection_monitor]
  | cons q rest ih =>
    intro m lg ext p now
    obtain ⟨qp, qn⟩ := q
    rw [List.cons_append, runPolls_cons]
    exact ih _ _ _ p now

theorem emitted_replicate_false (k : Nat) (msg now : String) (ys : List Poll) :
    emitted false (List.replicate k ((false, msg), now) ++ ys) = emitted false ys := by
  induction k with
  | zero => rw [List.replicate_zero, List.nil_append]
  | succ n ih =>
    rw [List.replicate_succ, List.cons_append]
    simp [emitted, ih]

/-- C3: along any sequence of dependency poll results, `check_connection`
appends to the ActivityLog exactly the entries of `emitted`: one SUCCESS
entry per `false→true` transition of the connected flag, one ERROR entry
per `true→false` transition, and no entry when the new result equals the
previous state, no matter how many identical polls occur in a row.
(The capacity hypothesis keeps the run below the log's eviction bound, so
appended entries are observable in the stored list.) -/
theorem C3_edge_triggered_logging (σ : Type) (m : DatabaseMonitor)
    (lg : ActivityLogger σ) (ext : σ) (polls : List Poll)
    (hcap : lg.activities.length + (emitted m.is_connected polls).length
        ≤ lg.max_entries) :
    (runPolls m lg ext polls).2.1.activities
      = lg.activities ++ emitted m.is_connected polls :=
  runPolls_activities polls m lg ext hcap

/-- Witness for C3: two identical "connected" polls then a failure produce
exactly one SUCCESS and one ERROR entry. -/
theorem C3_edge_triggered_logging_witness :
    (runPolls DatabaseMonitor.init (ActivityLogger.init Unit) ()
        [((true, "ok"), "t1"), ((true, "ok"), "t2"), ((false, "gone"), "t3")]).2.1.activities
      = (ActivityLogger.init Unit).activities
        ++ emitted (DatabaseMonitor.init).is_connected
            [((true, "ok"), "t1"), ((true, "ok"), "t2"), ((false, "gone"), "t3")] :=
  C3_edge_triggered_logging Unit DatabaseMonitor.init (ActivityLogger.init Unit) ()
    [((true, "ok"), "t1"), ((true, "ok"), "t2"), ((false, "gone"), "t3")] (by decide)

/-- C4 counterexample: from the monitor's initial state
(`is_connected = False` in `__init__`, not an "unknown" state), three
failing polls then a successful one leave exactly ONE entry in the log
(the SUCCESS entry of the `false→true` transition) — not two: the three
failing polls match the initial `False` and log nothing, so there is no
ERROR entry and the log grows by 1, refuting "grows by exactly 2" and
"transitions to false with exactly one ERROR entry logged". -/
theorem C4_initial_state_counterexample :
    (runPolls DatabaseMonitor.init (ActivityLogger.init Unit) ()
        [((false, "no db"), "t1"), ((false, "no db"), "t2"), ((false, "no db"), "t3"),
         ((true, "ok"), "t4")]).2.1.activities
      = [fmtActivity "t4" "SUCCESS" "Database connection restored"]
    ∧ ¬ ((runPolls DatabaseMonitor.init (ActivityLogger.init Unit) ()
        [((false, "no db"), "t1"), ((false, "no db"), "t2"), ((false, "no db"), "t3"),
         ((true, "ok"), "t4")]).2.1.activities.length
          = (ActivityLogger.init Unit).activities.length + 2) := by
  constructor
  · rfl
  · decide

/-- C4 (amended): starting from the monitor's initial state (`connected`
is initialised to `false`), any number `k` of consecutive failing probes
followed by a success leaves `connected = true` and grows the ActivityLog
by exactly ONE entry — the SUCCESS entry of the `false→true` transition;
the failing probes match the initial `false` state and log no ERROR entry,
regardless of the number of polls. -/
theorem C4_amended_single_log (σ : Type) (ext : σ) (k : Nat)
    (failMsg okMsg nowF nowS : String) :
    (runPolls DatabaseMonitor.init (ActivityLogger.init σ) ext
        (List.replicate k ((false, failMsg), nowF)
          ++ [((true, okMsg), nowS)])).1.is_connected = true
    ∧ (runPolls DatabaseMonitor.init (ActivityLogger.init σ) ext
        (List.replicate k ((false, failMsg), nowF)
          ++ [((true, okMsg), nowS)])).2.1.activities
      = [fmtActivity nowS "SUCCESS" "Database connection restored"] := by
  constructor
  · exact runPolls_connected (List.replicate k ((false, failMsg), nowF))
      DatabaseMonitor.init (ActivityLogger.init σ) ext (true, okMsg) nowS
  · have hem : emitted (DatabaseMonitor.init).is_connected
        (List.replicate k ((false, failMsg), nowF) ++ [((true, okMsg), nowS)])
        = [fmtActivity nowS "SUCCESS" "Database connection restored"] := by
      rw [show (DatabaseMonitor.init).is_connected = false from rfl,
        emitted_replicate_false k failMsg nowF [((true, okMsg), nowS)]]
      simp [emitted]
    have hcap : (ActivityLogger.init σ).activities.length
        + (emitted (DatabaseMonitor.init).is_connected
            (List.replicate k ((false, failMsg), nowF)
              ++ [((true, okMsg), nowS)])).length
        ≤ (ActivityLogger.init σ).max_entries := by
      rw [hem]
      simp [ActivityLogger.init]
    have hrun := runPolls_activities
      (List.replicate k ((false, failMsg), nowF) ++ [((true, okMsg), nowS)])
      DatabaseMonitor.init (ActivityLogger.init σ) ext hcap
    rw [hrun, hem]
    rfl

theorem notifyCallbacks_append {σ : Type} (l1 l2 : List (Callback σ)) (a : String) :
    ∀ ext : σ, notifyCallbacks (l1 ++ l2) a ext
      = notifyCallbacks l2 a (notifyCallbacks l1 a ext) := by
  induction l1 with
  | nil => intro ext; rfl
  | cons c t ih =>
    intro ext
    simp only [List.cons_append, notifyCallbacks]
    exact ih _

theorem drop_append_singleton {α : Type} (n : Nat) (xs : List α) (a : α)
    (h : n ≤ xs.length) :
    (xs ++ [a]).drop n = xs.drop n ++ [a] := by
  rw [List.drop_append_eq_append_drop, Nat.sub_eq_zero_of_le h, List.drop_zero]

/-- C10: if a registered subscriber callback raises during `add_activity`,
the exception is swallowed (`except: pass`): `add_activity` completes
normally (it is a total function), the external state equals the effect of
running the callbacks before the bad one and then the callbacks after it —
i.e. every other callback is still invoked with the entry — and the new
entry is stored at the end of the log. -/
theorem C10_callback_exception (σ : Type) (l : ActivityLogger σ) (ext : σ)
    (now msg lvl err : String) (pre post : List (Callback σ)) (bad : Callback σ)
    (hcb : l.callbacks = pre ++ bad :: post)
    (hbad : bad (fmtActivity now lvl msg)
        (notifyCallbacks pre (fmtActivity now lvl msg) ext) = Except.error err) :
    (add_activity l ext now msg lvl).2
      = notifyCallbacks post (fmtActivity now lvl msg)
          (notifyCallbacks pre (fmtActivity now lvl msg) ext)
    ∧ ∃ dropped, (add_activity l ext now msg lvl).1.activities
        = dropped ++ [fmtActivity now lvl msg] := by
  constructor
  · show notifyCallbacks l.callbacks (fmtActivity now lvl msg) ext = _
    rw [hcb, notifyCallbacks_append]
    simp only [notifyCallbacks, hbad]
  · have hact : (add_activity l ext now msg lvl).1.activities
        = (if l.max_entries < (l.activities ++ [fmtActivity now lvl msg]).length then
            pySliceFromNeg (l.activities ++ [fmtActivity now lvl msg]) l.max_entries
          else l.activities ++ [fmtActivity now lvl msg]) := rfl
    rw [hact]
    split
    · simp only [pySliceFromNeg]
      split
      · exact ⟨l.activities, rfl⟩
      · next hmz =>
        have hN : (l.activities ++ [fmtActivity now lvl msg]).length - l.max_entries
            ≤ l.activities.length := by
          simp only [List.length_append, List.length_cons, List.length_nil]
          omega
        exact ⟨_, drop_append_singleton _ _ _ hN⟩
    · exact ⟨l.activities, rfl⟩

/-- Witness for C10: a raising callback sandwiched between two recording
callbacks; the entry is delivered to both good callbacks and stored. -/
theorem C10_callback_exception_witness :
    (add_activity
        ({ activities := [], max_entries := 100,
           callbacks := [goodCb, badCb, goodCb] } : ActivityLogger (List String))
        [] "t" "ping" "INFO").2
      = notifyCallbacks [goodCb] (fmtActivity "t" "INFO" "ping")
          (notifyCallbacks [goodCb] (fmtActivity "t" "INFO" "ping") []) :=
  (C10_callback_exception (List String)
    ({ activities := [], max_entries := 100,
       callbacks := [goodCb, badCb, goodCb] } : ActivityLogger (List String))
    [] "t" "ping" "INFO" "boom" [goodCb] [goodCb] badCb rfl rfl).1

end PriceScanner
